import Mathlib

/-
  Verification of the WAReminder reminder lifecycle engine.

  Shallow embedding of the JavaScript sources:
    - src/lib/constants.js      (plan limits, retention window, storage quota)
    - src/lib/validators.js     (creation-payload validation)
    - src/services/plan-service.js      (admission control)
    - src/services/reminder-service.js  (create / complete / delete /
                                         overdue scan / cleanup / quota check)
    - src/background/service-worker.js  (alarm reconciliation)

  JavaScript numbers are modelled by JSNum: epoch-millisecond values in this
  code base are produced by Date.now() and integer arithmetic, so finite
  values are carried as Int; the special values NaN, +Infinity and -Infinity
  are carried explicitly because validator behaviour on them matters.
  The chrome.storage / chrome.alarms effects are modelled by explicit state
  passing on EngineState; every engine operation returns its result together
  with the post-state, and an operation that throws before any write returns
  the unchanged input state, mirroring the control flow of the source.
-/

namespace WAReminder

/-- A JavaScript number as used for epoch-millisecond timestamps: either a
finite integral value, or one of the special values NaN, +Infinity,
-Infinity. -/
inductive JSNum where
  | nan
  | posInf
  | negInf
  | fin (v : Int)
deriving DecidableEq, Repr

/-- The JS global isNaN on a number: true exactly on NaN. -/
def jsIsNaN : JSNum → Bool
  | .nan => true
  | _ => false

/-- The JS comparison a <= b on numbers: false whenever either side is NaN,
-Infinity below everything else, +Infinity above everything else. -/
def jsLe : JSNum → JSNum → Bool
  | .nan, _ => false
  | _, .nan => false
  | .negInf, _ => true
  | _, .posInf => true
  | .posInf, _ => false
  | _, .negInf => false
  | .fin a, .fin b => decide (a ≤ b)

/-- JS truthiness of a string: the empty string is falsy.  Stated on the
character list of the string. -/
def jsTruthyStr (s : String) : Bool := !s.data.isEmpty

/-- JS String.prototype.trim: whitespace stripped from both ends. -/
def jsTrim (s : String) : String :=
  ⟨((s.data.dropWhile Char.isWhitespace).reverse.dropWhile Char.isWhitespace).reverse⟩

/- ----------------------------------------------------------------
   constants.js
   ---------------------------------------------------------------- -/

namespace PLAN_LIMITS

/-- constants.js: FREE_ACTIVE_REMINDER_LIMIT. -/
def FREE_ACTIVE_REMINDER_LIMIT : Int := 5

/-- constants.js: PAID_ACTIVE_REMINDER_LIMIT, the -1 sentinel meaning
unlimited. -/
def PAID_ACTIVE_REMINDER_LIMIT : Int := -1

end PLAN_LIMITS

/-- constants.js: the ALARM name base "reminder-"; alarm keys are this string
followed by the reminder id. -/
def ALARM_KEY_BASE : String := "reminder-"

namespace REMINDER_STATUS

/-- constants.js: REMINDER_STATUS.PENDING. -/
def PENDING : String := "pending"

/-- constants.js: REMINDER_STATUS.COMPLETED. -/
def COMPLETED : String := "completed"

end REMINDER_STATUS

namespace CLEANUP

/-- constants.js: CLEANUP.COMPLETED_RETENTION_MS = 30 * 24 * 60 * 60 * 1000. -/
def COMPLETED_RETENTION_MS : Int := 30 * 24 * 60 * 60 * 1000

end CLEANUP

namespace STORAGE_QUOTA

/-- constants.js: STORAGE_QUOTA.MAX_BYTES = 10 * 1024 * 1024. -/
def MAX_BYTES : Nat := 10 * 1024 * 1024

/-- constants.js: STORAGE_QUOTA.WARNING_THRESHOLD = 0.9.  The source value is
the double 0.9; it is modelled as the rational 9/10.  For integer byte counts
against this budget the double comparison bytes / MAX_BYTES >= 0.9 agrees
with the exact rational comparison: consecutive ratios differ by about 1e-7,
far above double rounding error, and at the one exact-boundary byte count
(9437184) both sides round to the same double, so >= holds on both sides. -/
def WARNING_THRESHOLD : ℚ := 0.9

end STORAGE_QUOTA

/- ----------------------------------------------------------------
   Data model
   ---------------------------------------------------------------- -/

/-- One stored reminder record, as constructed by createReminder in
reminder-service.js. -/
structure Reminder where
  id : String
  chatId : String
  chatName : String
  scheduledTime : JSNum
  createdAt : Int
  status : String
  completedAt : Option Int
deriving DecidableEq, Repr

/-- The persisted user plan record (storage-service.js getUserPlan). -/
structure UserPlan where
  planType : String
  activeReminderLimit : Int
deriving DecidableEq, Repr

/-- One chrome.alarms entry: a name and an absolute fire time (the `when`
option of chrome.alarms.create). -/
structure Alarm where
  name : String
  whenMs : JSNum
deriving DecidableEq, Repr

/-- The state an engine operation reads and writes: the persisted reminder
collection, the persisted plan record, and the chrome.alarms registry. -/
structure EngineState where
  reminders : List Reminder
  userPlan : UserPlan
  alarms : List Alarm
deriving DecidableEq, Repr

/-- chrome.alarms.create name {when}: registers the alarm, replacing any
existing alarm of the same name. -/
def alarmsCreate (alarms : List Alarm) (name : String) (whenMs : JSNum) : List Alarm :=
  alarms.filter (fun a => a.name != name) ++ [⟨name, whenMs⟩]

/-- chrome.alarms.clear name: removes the alarm of that name if present;
clearing an absent name is not an error. -/
def alarmsClear (alarms : List Alarm) (name : String) : List Alarm :=
  alarms.filter (fun a => a.name != name)

/- ----------------------------------------------------------------
   validators.js
   ---------------------------------------------------------------- -/

/-- The {valid, error?} result shape returned by every validator. -/
structure ValidationResult where
  valid : Bool
  error : Option String
deriving DecidableEq, Repr

/-- The success result {valid: true}. -/
def vOk : ValidationResult := ⟨true, none⟩

/-- A failure result {valid: false, error: msg}. -/
def vErr (msg : String) : ValidationResult := ⟨false, some msg⟩

/-- validators.js validateFutureTime: rejects NaN with a
"must be a valid number" message (the typeof check of the source cannot fire
here because the model types the argument as a number), then rejects any
value <= Date.now() with a "must be in the future" message.  `now` is the
wall-clock reading Date.now() returns at validation. -/
def validateFutureTime (scheduledTime : JSNum) (now : Int) : ValidationResult :=
  if jsIsNaN scheduledTime then
    vErr "Scheduled time must be a valid number"
  else if jsLe scheduledTime (.fin now) then
    vErr "Reminder time must be in the future"
  else
    vOk

/-- The character class [a-z0-9_] of validators.js SLUG_PATTERN. -/
def slugChar (c : Char) : Bool :=
  (decide ('a' ≤ c) && decide (c ≤ 'z')) || c.isDigit || (c == '_')

/-- validators.js SLUG_PATTERN test: the regex ^[a-z0-9_]+$, i.e. nonempty
and every character in the class. -/
def slugTest (s : String) : Bool :=
  !s.data.isEmpty && s.data.all slugChar

/-- validators.js JID_PATTERN test: the regex ^\d+@(c\.us|g\.us)$.  Because
the character after the digit run must be @, which is not a digit, the
greedy digit run of the regex is exactly the maximal leading digit run, so
the regex is equivalent to: a nonempty maximal leading run of digits whose
remainder is the literal "@c.us" or "@g.us". -/
def jidTest (s : String) : Bool :=
  let digits := s.data.takeWhile Char.isDigit
  let rest := s.data.drop digits.length
  !digits.isEmpty && (rest == "@c.us".data || rest == "@g.us".data)

/-- validators.js validateChatId: rejects a falsy (empty) string, accepts a
string matching JID_PATTERN or SLUG_PATTERN, rejects everything else.  (The
typeof-string check of the source cannot fire here because the model types
the argument as a string.) -/
def validateChatId (chatId : String) : ValidationResult :=
  if !jsTruthyStr chatId then
    vErr "Invalid chat identifier"
  else if !jidTest chatId && !slugTest chatId then
    vErr "Invalid chat identifier"
  else
    vOk

/-- The {chatId, chatName, scheduledTime} creation payload.  The fields are
typed, so the missing/undefined/wrongly-typed cases of the source collapse
to their falsy representatives (empty string); scheduledTime is always a
number here, which is the case every claim is about. -/
structure CreatePayload where
  chatId : String
  chatName : String
  scheduledTime : JSNum
deriving DecidableEq, Repr

/-- validators.js validateRequiredFields on a typed payload: chatId must be
truthy and nonblank after trimming, likewise chatName.  (The
payload-missing and scheduledTime-null branches of the source cannot fire on
a typed payload.) -/
def validateRequiredFields (p : CreatePayload) : ValidationResult :=
  if !jsTruthyStr p.chatId || !jsTruthyStr (jsTrim p.chatId) then
    vErr "Missing required field: chatId"
  else if !jsTruthyStr p.chatName || !jsTruthyStr (jsTrim p.chatName) then
    vErr "Missing required field: chatName"
  else
    vOk

/-- validators.js validateCreateReminderPayload: required fields, then chat
id format, then future time; returns the first failure. -/
def validateCreateReminderPayload (p : CreatePayload) (now : Int) : ValidationResult :=
  let requiredCheck := validateRequiredFields p
  if !requiredCheck.valid then requiredCheck
  else
    let chatIdCheck := validateChatId p.chatId
    if !chatIdCheck.valid then chatIdCheck
    else
      let timeCheck := validateFutureTime p.scheduledTime now
      if !timeCheck.valid then timeCheck
      else vOk

/- ----------------------------------------------------------------
   plan-service.js
   ---------------------------------------------------------------- -/

/-- The count of reminders with status == pending, as computed by
plan-service.js. -/
def pendingCount (reminders : List Reminder) : Nat :=
  (reminders.filter (fun r => r.status == REMINDER_STATUS.PENDING)).length

/-- plan-service.js canCreateReminder: true if the plan limit is the -1
unlimited sentinel, otherwise true iff the pending count is strictly below
the limit. -/
def canCreateReminder (reminders : List Reminder) (plan : UserPlan) : Bool :=
  if plan.activeReminderLimit == PLAN_LIMITS.PAID_ACTIVE_REMINDER_LIMIT then
    true
  else
    decide ((pendingCount reminders : Int) < plan.activeReminderLimit)

/-- The status record returned by plan-service.js getPlanStatus. -/
structure PlanStatus where
  planType : String
  activeReminderLimit : Int
  currentPendingCount : Nat
  canCreateReminder : Bool
deriving DecidableEq, Repr

/-- plan-service.js getPlanStatus. -/
def getPlanStatus (reminders : List Reminder) (plan : UserPlan) : PlanStatus :=
  { planType := plan.planType
    activeReminderLimit := plan.activeReminderLimit
    currentPendingCount := pendingCount reminders
    canCreateReminder :=
      plan.activeReminderLimit == PLAN_LIMITS.PAID_ACTIVE_REMINDER_LIMIT ||
        decide ((pendingCount reminders : Int) < plan.activeReminderLimit) }

/- ----------------------------------------------------------------
   reminder-service.js
   ---------------------------------------------------------------- -/

/-- The typed errors thrown by the engine (the err.name values the service
assigns). -/
inductive EngineError where
  | validationError (msg : String)
  | planLimitError (msg : String)
  | storageQuotaError (msg : String)
  | notFoundError (msg : String)
  | alreadyCompletedError (msg : String)
deriving DecidableEq, Repr

/-- JS Math.round: round half toward positive infinity. -/
def jsRound (q : ℚ) : Int := ⌊q + 1 / 2⌋

/-- The {nearQuota, usagePercent} result of checkStorageQuota. -/
structure QuotaCheck where
  nearQuota : Bool
  usagePercent : ℚ
deriving DecidableEq, Repr

/-- reminder-service.js checkStorageQuota.  The source estimates
JSON.stringify(reminders).length; the byte estimate is abstracted as the
function argument estimatedBytes applied to the current collection, since
no claim depends on the exact JSON length of a record.  nearQuota is the
comparison usagePercent >= WARNING_THRESHOLD, written in the equivalent
exact integer form bytes / MAX_BYTES >= 9/10  <->  9 * MAX_BYTES <= 10 *
bytes (the lemma nearQuota_iff_threshold below proves the equivalence with
the rational-threshold form); usagePercent is the ratio rounded to two
decimals via Math.round(usage * 100) / 100. -/
def checkStorageQuota (estimatedBytes : List Reminder → Nat)
    (reminders : List Reminder) : QuotaCheck :=
  let bytes := estimatedBytes reminders
  { nearQuota := decide (9 * STORAGE_QUOTA.MAX_BYTES ≤ 10 * bytes)
    usagePercent :=
      (jsRound ((bytes : ℚ) / (STORAGE_QUOTA.MAX_BYTES : ℚ) * 100) : ℚ) / 100 }

/-- The integer comparison inside checkStorageQuota is exactly the source's
usage >= WARNING_THRESHOLD on the byte ratio. -/
lemma nearQuota_iff_threshold (bytes : Nat) :
    (9 * STORAGE_QUOTA.MAX_BYTES ≤ 10 * bytes) ↔
      STORAGE_QUOTA.WARNING_THRESHOLD ≤ (bytes : ℚ) / (STORAGE_QUOTA.MAX_BYTES : ℚ) := by
  unfold STORAGE_QUOTA.WARNING_THRESHOLD STORAGE_QUOTA.MAX_BYTES
  rw [le_div_iff₀ (by norm_num)]
  norm_num
  constructor
  · intro h
    have hb : 9437184 ≤ bytes := by omega
    exact_mod_cast hb
  · intro h
    have hb : 9437184 ≤ bytes := by exact_mod_cast h
    omega

/-- The plan-limit error message built by createReminder from
getPlanStatus().activeReminderLimit. -/
def mkPlanLimitMsg (limit : Int) : String :=
  "You\x27ve reached the limit of " ++ toString limit ++
    " active reminders. Upgrade to create more."

/-- reminder-service.js createReminder.  Arguments beyond the payload model
the ambient effects: `now` is Date.now(), `newId` the id generateId()
returns, `estimatedBytes` the JSON-size estimate used by the quota check.
Control flow follows the source: validation, plan-limit check, quota check
(each throwing with the unchanged state), then record construction, append
plus whole-collection save, and alarm scheduling for key
ALARM_KEY_BASE ++ id at the scheduled time. -/
def createReminder (estimatedBytes : List Reminder → Nat) (payload : CreatePayload)
    (now : Int) (newId : String) (st : EngineState) :
    Except EngineError Reminder × EngineState :=
  let validation := validateCreateReminderPayload payload now
  if !validation.valid then
    (.error (.validationError (validation.error.getD "")), st)
  else if !canCreateReminder st.reminders st.userPlan then
    (.error (.planLimitError
      (mkPlanLimitMsg (getPlanStatus st.reminders st.userPlan).activeReminderLimit)), st)
  else if (checkStorageQuota estimatedBytes st.reminders).nearQuota then
    (.error (.storageQuotaError
      "Storage is almost full. Please delete some old reminders before creating new ones."), st)
  else
    let reminder : Reminder :=
      { id := newId
        chatId := jsTrim payload.chatId
        chatName := jsTrim payload.chatName
        scheduledTime := payload.scheduledTime
        createdAt := now
        status := REMINDER_STATUS.PENDING
        completedAt := none }
    let reminders := st.reminders ++ [reminder]
    (.ok reminder,
      { st with
          reminders := reminders
          alarms := alarmsCreate st.alarms (ALARM_KEY_BASE ++ reminder.id)
            reminder.scheduledTime })

/-- reminder-service.js completeReminder: find by id (NotFoundError if
absent), refuse an already-completed record (AlreadyCompletedError), else
set status and completedAt, save the collection, clear the alarm.  The
inner none branch is unreachable: findIdx? only returns an in-range
index. -/
def completeReminder (reminderId : String) (now : Int) (st : EngineState) :
    Except EngineError Reminder × EngineState :=
  match st.reminders.findIdx? (fun r => r.id == reminderId) with
  | none => (.error (.notFoundError "Reminder not found"), st)
  | some index =>
    match st.reminders[index]? with
    | none => (.error (.notFoundError "Reminder not found"), st)
    | some r =>
      if r.status == REMINDER_STATUS.COMPLETED then
        (.error (.alreadyCompletedError "Reminder is already completed"), st)
      else
        let updated := { r with
          status := REMINDER_STATUS.COMPLETED
          completedAt := some now }
        (.ok updated,
          { st with
              reminders := st.reminders.set index updated
              alarms := alarmsClear st.alarms (ALARM_KEY_BASE ++ reminderId) })

/-- reminder-service.js deleteReminder: find by id (NotFoundError if
absent), splice the record out, save, clear the alarm. -/
def deleteReminder (reminderId : String) (st : EngineState) :
    Except EngineError String × EngineState :=
  match st.reminders.findIdx? (fun r => r.id == reminderId) with
  | none => (.error (.notFoundError "Reminder not found"), st)
  | some index =>
    (.ok reminderId,
      { st with
          reminders := st.reminders.eraseIdx index
          alarms := alarmsClear st.alarms (ALARM_KEY_BASE ++ reminderId) })

/-- reminder-service.js getOverdueReminders: filter the collection down to
pending records whose scheduledTime <= Date.now(); the state is returned
unchanged because the source only reads. -/
def getOverdueReminders (now : Int) (st : EngineState) :
    List Reminder × EngineState :=
  (st.reminders.filter
    (fun r => r.status == REMINDER_STATUS.PENDING && jsLe r.scheduledTime (.fin now)),
   st)

/-- The removal test inside the cleanupExpiredCompleted filter: status is
completed, completedAt is truthy (the source guard `r.completedAt &&`, which
is false for null and for the number 0), and completedAt < now - retention.
The getD 0 default is only reached when completedAt is none, in which case
the truthiness conjunct is already false, mirroring the short-circuit. -/
def cleanupRemoves (now : Int) (r : Reminder) : Bool :=
  r.status == REMINDER_STATUS.COMPLETED &&
    (match r.completedAt with | none => false | some v => v != 0) &&
    decide (r.completedAt.getD 0 < now - CLEANUP.COMPLETED_RETENTION_MS)

/-- reminder-service.js cleanupExpiredCompleted: retain every record the
removal test rejects, save only when something was removed, return the
removed count. -/
def cleanupExpiredCompleted (now : Int) (st : EngineState) : Nat × EngineState :=
  let retained := st.reminders.filter (fun r => !cleanupRemoves now r)
  let removedCount := st.reminders.length - retained.length
  if removedCount > 0 then
    (removedCount, { st with reminders := retained })
  else
    (removedCount, st)

/- ----------------------------------------------------------------
   service-worker.js
   ---------------------------------------------------------------- -/

/-- service-worker.js reconcileAlarms: snapshot the names of the currently
registered alarms, then for every stored reminder that is pending and whose
key ALARM_KEY_BASE ++ id is not among those names, create the alarm at its
scheduledTime. -/
def reconcileAlarms (st : EngineState) : EngineState :=
  let existingNames := st.alarms.map (fun a => a.name)
  { st with
      alarms := st.reminders.foldl
        (fun acc r =>
          let alarmName := ALARM_KEY_BASE ++ r.id
          if r.status == REMINDER_STATUS.PENDING && !existingNames.contains alarmName then
            alarmsCreate acc alarmName r.scheduledTime
          else
            acc)
        st.alarms }

/- ----------------------------------------------------------------
   Operation sequences
   ---------------------------------------------------------------- -/

/-- One engine operation, carrying the ambient inputs (wall clock, fresh id)
the corresponding service call reads. -/
inductive Op where
  | create (payload : CreatePayload) (now : Int) (newId : String)
  | complete (reminderId : String) (now : Int)
  | delete (reminderId : String)
  | cleanup (now : Int)
deriving DecidableEq, Repr

/-- The state after one operation; a failed operation leaves the state as
the service left it (unchanged, since every throw precedes every write). -/
def applyOp (estimatedBytes : List Reminder → Nat) (st : EngineState) : Op → EngineState
  | .create payload now newId => (createReminder estimatedBytes payload now newId st).2
  | .complete reminderId now => (completeReminder reminderId now st).2
  | .delete reminderId => (deleteReminder reminderId st).2
  | .cleanup now => (cleanupExpiredCompleted now st).2

/-- The state after a sequence of operations. -/
def runOps (estimatedBytes : List Reminder → Nat) (st : EngineState) : List Op → EngineState
  | [] => st
  | op :: ops => runOps estimatedBytes (applyOp estimatedBytes st op) ops

/-- The empty store under a given plan: no reminders, no alarms. -/
def initState (plan : UserPlan) : EngineState :=
  { reminders := [], userPlan := plan, alarms := [] }

/- ----------------------------------------------------------------
   Helper lemmas
   ---------------------------------------------------------------- -/

/-- A decimal digit is not one of the four whitespace characters. -/
lemma isWhitespace_eq_false_of_isDigit (c : Char) (h : c.isDigit = true) :
    c.isWhitespace = false := by
  cases hw : c.isWhitespace
  · rfl
  · exfalso
    simp [Char.isWhitespace] at hw
    rcases hw with ((rfl | rfl) | rfl) | rfl
    all_goals exact absurd h (by decide)

/-- dropWhile is the identity when no element satisfies the test. -/
lemma dropWhile_eq_self_of_not {p : Char → Bool} {l : List Char}
    (h : ∀ c ∈ l, p c = false) : l.dropWhile p = l := by
  cases l with
  | nil => rfl
  | cons a l =>
    rw [List.dropWhile_cons, h a (List.mem_cons_self a l)]
    simp

/-- takeWhile is the identity when every element satisfies the test. -/
lemma takeWhile_eq_self_of_all {p : Char → Bool} {l : List Char}
    (h : ∀ c ∈ l, p c = true) : l.takeWhile p = l := by
  induction l with
  | nil => rfl
  | cons a l ih =>
    rw [List.takeWhile_cons, h a (List.mem_cons_self a l)]
    simp only [if_true]
    rw [ih (fun c hc => h c (List.mem_cons_of_mem a hc))]

/-- jsTrim is the identity on a string with no whitespace characters. -/
lemma jsTrim_eq_self {s : String} (h : ∀ c ∈ s.data, c.isWhitespace = false) :
    jsTrim s = s := by
  unfold jsTrim
  rw [dropWhile_eq_self_of_not h]
  rw [dropWhile_eq_self_of_not (fun c hc => h c (List.mem_reverse.mp hc))]
  rw [List.reverse_reverse]

/-- A string of decimal digits fails the JID pattern: the maximal digit run
is the whole string, leaving no "@c.us" or "@g.us" remainder. -/
lemma jidTest_eq_false_of_digits {s : String}
    (hdig : ∀ c ∈ s.data, c.isDigit = true) : jidTest s = false := by
  simp only [jidTest]
  rw [takeWhile_eq_self_of_all hdig, List.drop_length]
  simp

/-- A nonempty string of decimal digits matches the slug pattern. -/
lemma slugTest_eq_true_of_digits {s : String} (hne : s.data ≠ [])
    (hdig : ∀ c ∈ s.data, c.isDigit = true) : slugTest s = true := by
  unfold slugTest
  rw [Bool.and_eq_true]
  constructor
  · simpa using hne
  · rw [List.all_eq_true]
    intro c hc
    unfold slugChar
    rw [hdig c hc]
    simp

/- ----------------------------------------------------------------
   C10
   ---------------------------------------------------------------- -/

/-- C10: every nonempty string of ASCII digits (a bare phone number with no
domain suffix) fails the JID pattern but matches the fallback slug pattern,
so the chat-identifier check accepts it, and a creation payload carrying it
(with a truthy chat name and a future scheduled time) passes the whole
creation validation. -/
theorem digitChatId_passes_validation (s chatName : String) (t now : Int)
    (hne : s.data ≠ [])
    (hdig : ∀ c ∈ s.data, c.isDigit = true)
    (hname : jsTruthyStr chatName = true)
    (hnametrim : jsTruthyStr (jsTrim chatName) = true)
    (ht : now < t) :
    jidTest s = false ∧ slugTest s = true ∧
      validateChatId s = vOk ∧
      validateCreateReminderPayload ⟨s, chatName, .fin t⟩ now = vOk := by
  have hjid := jidTest_eq_false_of_digits hdig
  have hslug := slugTest_eq_true_of_digits hne hdig
  have htruthy : jsTruthyStr s = true := by
    unfold jsTruthyStr
    simpa using hne
  have hchat : validateChatId s = vOk := by
    unfold validateChatId
    rw [htruthy, hjid, hslug]
    rfl
  refine ⟨hjid, hslug, hchat, ?_⟩
  have htrim : jsTrim s = s :=
    jsTrim_eq_self (fun c hc => isWhitespace_eq_false_of_isDigit c (hdig c hc))
  have hreq : validateRequiredFields ⟨s, chatName, .fin t⟩ = vOk := by
    unfold validateRequiredFields
    simp only [htruthy, htrim, hname, hnametrim]
    rfl
  have htime : validateFutureTime (.fin t) now = vOk := by
    unfold validateFutureTime jsIsNaN jsLe
    simp only [Bool.false_eq_true, if_false, decide_eq_true_eq]
    rw [if_neg]
    omega
  unfold validateCreateReminderPayload
  simp only [hreq, hchat, htime]
  rfl

/-- C10 witness: the bare digit string "12345" passes the chat-identifier
check and the whole creation validation. -/
theorem digitChatId_passes_validation_witness :
    ("12345" : String).data ≠ [] ∧
      (∀ c ∈ ("12345" : String).data, c.isDigit = true) ∧
      jsTruthyStr "Bob" = true ∧ jsTruthyStr (jsTrim "Bob") = true ∧
      (0 : Int) < 10 ∧
      (jidTest "12345" = false ∧ slugTest "12345" = true ∧
        validateChatId "12345" = vOk ∧
        validateCreateReminderPayload ⟨"12345", "Bob", .fin 10⟩ 0 = vOk) :=
  ⟨by decide, by decide, by decide, by decide, by decide,
    digitChatId_passes_validation "12345" "Bob" 10 0
      (by decide) (by decide) (by decide) (by decide) (by decide)⟩

/- ----------------------------------------------------------------
   C2
   ---------------------------------------------------------------- -/

/-- C2 counterexample: a payload whose scheduledAt is the non-finite number
+Infinity is accepted by the validators, because the source only rejects
NaN (isNaN) and values <= Date.now(), and Infinity is neither. -/
theorem validateFutureTime_accepts_posInf :
    validateFutureTime .posInf 0 = vOk ∧
      validateCreateReminderPayload ⟨"123", "Bob", .posInf⟩ 0 = vOk :=
  ⟨rfl, rfl⟩

/-- C2 amended: for a payload that passes the required-field and chat-id
checks, the creation validation rejects it exactly when scheduledAt is NaN
or scheduledAt <= the wall clock at validation (so NaN and -Infinity are
rejected, but +Infinity is accepted). -/
theorem validateCreateReminderPayload_time_rejects_iff (p : CreatePayload) (now : Int)
    (h1 : validateRequiredFields p = vOk)
    (h2 : validateChatId p.chatId = vOk) :
    ((validateCreateReminderPayload p now).valid = false ↔
      (p.scheduledTime = .nan ∨ jsLe p.scheduledTime (.fin now) = true)) := by
  unfold validateCreateReminderPayload
  simp only [h1, h2]
  unfold validateFutureTime
  cases hp : p.scheduledTime with
  | nan => simp [jsIsNaN, vErr, vOk]
  | posInf => simp [jsIsNaN, jsLe, vErr, vOk]
  | negInf => simp [jsIsNaN, jsLe, vErr, vOk]
  | fin v =>
    by_cases hle : v ≤ now
    · simp [jsIsNaN, jsLe, vErr, vOk, hle]
    · simp [jsIsNaN, jsLe, vErr, vOk, hle]

/-- C2 amended witness: a NaN scheduledAt is rejected. -/
theorem validateCreateReminderPayload_time_rejects_iff_witness :
    validateRequiredFields ⟨"123", "Bob", .nan⟩ = vOk ∧
      validateChatId "123" = vOk ∧
      ((validateCreateReminderPayload ⟨"123", "Bob", .nan⟩ 0).valid = false ↔
        (JSNum.nan = JSNum.nan ∨ jsLe .nan (.fin 0) = true)) :=
  ⟨by decide, by decide,
    validateCreateReminderPayload_time_rejects_iff ⟨"123", "Bob", .nan⟩ 0
      (by decide) (by decide)⟩

/- ----------------------------------------------------------------
   C3
   ---------------------------------------------------------------- -/

/-- C3: completing a reminder whose record is already completed fails with
AlreadyCompletedError and returns the engine state unchanged: the stored
collection (in particular completedAt) is untouched and no alarm clear is
issued. -/
theorem completeReminder_already_completed (st : EngineState) (reminderId : String)
    (now : Int) (i : Nat) (r : Reminder)
    (hi : st.reminders.findIdx? (fun x => x.id == reminderId) = some i)
    (hr : st.reminders[i]? = some r)
    (hc : r.status = REMINDER_STATUS.COMPLETED) :
    completeReminder reminderId now st =
      (.error (.alreadyCompletedError "Reminder is already completed"), st) := by
  unfold completeReminder
  simp only [hi, hr]
  rw [hc]
  simp

/-- C3 witness: completing the already-completed reminder of a concrete
one-element store fails and leaves the state intact. -/
theorem completeReminder_already_completed_witness :
    ([⟨"a", "123", "bob", .fin 50, 0, "completed", some 7⟩] : List Reminder).findIdx?
        (fun x => x.id == "a") = some 0 ∧
      ([⟨"a", "123", "bob", .fin 50, 0, "completed", some 7⟩] : List Reminder)[0]? =
        some ⟨"a", "123", "bob", .fin 50, 0, "completed", some 7⟩ ∧
      (⟨"a", "123", "bob", .fin 50, 0, "completed", some 7⟩ : Reminder).status =
        REMINDER_STATUS.COMPLETED ∧
      completeReminder "a" 9
          ⟨[⟨"a", "123", "bob", .fin 50, 0, "completed", some 7⟩], ⟨"free", 5⟩, []⟩ =
        (.error (.alreadyCompletedError "Reminder is already completed"),
          ⟨[⟨"a", "123", "bob", .fin 50, 0, "completed", some 7⟩], ⟨"free", 5⟩, []⟩) :=
  ⟨by decide, by decide, by decide,
    completeReminder_already_completed
      ⟨[⟨"a", "123", "bob", .fin 50, 0, "completed", some 7⟩], ⟨"free", 5⟩, []⟩
      "a" 9 0 ⟨"a", "123", "bob", .fin 50, 0, "completed", some 7⟩
      (by decide) (by decide) (by decide)⟩

/- ----------------------------------------------------------------
   C4
   ---------------------------------------------------------------- -/

/-- C4: whenever create fails (ValidationError, PlanLimitError or
StorageQuotaError are its only errors), the engine state is exactly what it
was before the call: no record appended, no write, no alarm scheduled.
Moreover, when validation passes but admission is refused, the error is a
PlanLimitError whose message names the numeric plan limit. -/
theorem createReminder_error_frame (estB : List Reminder → Nat) (p : CreatePayload)
    (now : Int) (newId : String) (st : EngineState) (e : EngineError)
    (h : (createReminder estB p now newId st).1 = .error e) :
    (createReminder estB p now newId st).2 = st ∧
      (validateCreateReminderPayload p now = vOk →
        canCreateReminder st.reminders st.userPlan = false →
        e = .planLimitError (mkPlanLimitMsg st.userPlan.activeReminderLimit)) := by
  by_cases hv : (validateCreateReminderPayload p now).valid = true
  · by_cases hcc : canCreateReminder st.reminders st.userPlan = true
    · by_cases hq : (checkStorageQuota estB st.reminders).nearQuota = true
      · constructor
        · simp [createReminder, hv, hcc, hq]
        · intro _ hccf
          rw [hccf] at hcc
          exact absurd hcc (by simp)
      · exfalso
        simp [createReminder, hv, hcc, hq] at h
    · constructor
      · simp [createReminder, hv, hcc]
      · intro _ _
        simp [createReminder, hv, hcc, getPlanStatus] at h
        exact h.symm
  · constructor
    · simp [createReminder, hv]
    · intro hvo _
      rw [hvo] at hv
      exact absurd rfl hv

/-- A free-plan store holding five pending reminders, used to witness the
plan-limit scenario. -/
def fivePendingState : EngineState :=
  ⟨[⟨"a", "1", "n", .fin 9, 0, "pending", none⟩,
    ⟨"b", "1", "n", .fin 9, 0, "pending", none⟩,
    ⟨"c", "1", "n", .fin 9, 0, "pending", none⟩,
    ⟨"d", "1", "n", .fin 9, 0, "pending", none⟩,
    ⟨"e", "1", "n", .fin 9, 0, "pending", none⟩], ⟨"free", 5⟩, []⟩

/-- C4 witness: on a free plan holding five pending reminders, a sixth
create fails, the state keeps exactly the five records, and the error is
the PlanLimitError naming the limit 5. -/
theorem createReminder_error_frame_witness :
    (createReminder (fun _ => 0) ⟨"123", "Bob", .fin 10⟩ 0 "f" fivePendingState).1 =
        .error (.planLimitError (mkPlanLimitMsg 5)) ∧
      mkPlanLimitMsg 5 =
        "You\x27ve reached the limit of 5 active reminders. Upgrade to create more." ∧
      ((createReminder (fun _ => 0) ⟨"123", "Bob", .fin 10⟩ 0 "f" fivePendingState).2 =
          fivePendingState ∧
        (validateCreateReminderPayload ⟨"123", "Bob", .fin 10⟩ 0 = vOk →
          canCreateReminder fivePendingState.reminders fivePendingState.userPlan = false →
          EngineError.planLimitError (mkPlanLimitMsg 5) =
            .planLimitError (mkPlanLimitMsg fivePendingState.userPlan.activeReminderLimit))) := by
  refine ⟨rfl, rfl, ?_⟩
  exact createReminder_error_frame (fun _ => 0) ⟨"123", "Bob", .fin 10⟩ 0 "f"
    fivePendingState (.planLimitError (mkPlanLimitMsg 5)) rfl

/- ----------------------------------------------------------------
   C8
   ---------------------------------------------------------------- -/

/-- C8: when validation and admission control pass but the estimated
serialized size of the current collection is at least 90 percent of the
fixed byte budget, create fails with StorageQuotaError and the state is
unchanged, so the failure happens before any record is constructed or
persisted. -/
theorem createReminder_quota_error (estB : List Reminder → Nat) (p : CreatePayload)
    (now : Int) (newId : String) (st : EngineState)
    (hv : validateCreateReminderPayload p now = vOk)
    (ha : canCreateReminder st.reminders st.userPlan = true)
    (hq : STORAGE_QUOTA.WARNING_THRESHOLD ≤
      (estB st.reminders : ℚ) / (STORAGE_QUOTA.MAX_BYTES : ℚ)) :
    createReminder estB p now newId st =
      (.error (.storageQuotaError
        "Storage is almost full. Please delete some old reminders before creating new ones."),
       st) := by
  have hnq : (checkStorageQuota estB st.reminders).nearQuota = true := by
    simp only [checkStorageQuota, decide_eq_true_eq]
    exact (nearQuota_iff_threshold _).mpr hq
  simp [createReminder, hv, ha, hnq, vOk]

/-- C8 witness: an empty free-plan store whose byte estimate sits exactly at
the 90-percent threshold refuses a valid create with StorageQuotaError. -/
theorem createReminder_quota_error_witness :
    validateCreateReminderPayload ⟨"123", "Bob", .fin 10⟩ 0 = vOk ∧
      canCreateReminder ([] : List Reminder) ⟨"free", 5⟩ = true ∧
      STORAGE_QUOTA.WARNING_THRESHOLD ≤
        ((9437184 : Nat) : ℚ) / (STORAGE_QUOTA.MAX_BYTES : ℚ) ∧
      createReminder (fun _ => 9437184) ⟨"123", "Bob", .fin 10⟩ 0 "a"
          ⟨[], ⟨"free", 5⟩, []⟩ =
        (.error (.storageQuotaError
          "Storage is almost full. Please delete some old reminders before creating new ones."),
         ⟨[], ⟨"free", 5⟩, []⟩) :=
  ⟨by decide, by decide, by norm_num [STORAGE_QUOTA.WARNING_THRESHOLD, STORAGE_QUOTA.MAX_BYTES],
    createReminder_quota_error (fun _ => 9437184) ⟨"123", "Bob", .fin 10⟩ 0 "a"
      ⟨[], ⟨"free", 5⟩, []⟩ (by decide) (by decide)
      (by norm_num [STORAGE_QUOTA.WARNING_THRESHOLD, STORAGE_QUOTA.MAX_BYTES])⟩

/- ----------------------------------------------------------------
   C7
   ---------------------------------------------------------------- -/

/-- C7: the overdue scan returns exactly the reminders that are pending with
scheduledTime at or before now, and returns the engine state unchanged: no
field of any stored reminder is mutated and no write is issued. -/
theorem overdueScan_pure_filter (now : Int) (st : EngineState) :
    (getOverdueReminders now st).2 = st ∧
      ∀ r, r ∈ (getOverdueReminders now st).1 ↔
        (r ∈ st.reminders ∧ r.status = REMINDER_STATUS.PENDING ∧
          jsLe r.scheduledTime (.fin now) = true) := by
  refine ⟨rfl, fun r => ?_⟩
  simp [getOverdueReminders, List.mem_filter, and_assoc]

/- ----------------------------------------------------------------
   C5
   ---------------------------------------------------------------- -/

/-- A completed reminder whose completedAt is the epoch value 0, which is
JS-falsy and therefore escapes the cleanup filter. -/
def zeroCompletedReminder : Reminder :=
  ⟨"a", "123", "bob", .fin 0, 0, "completed", some 0⟩

/-- A one-element store holding only zeroCompletedReminder. -/
def zeroCompletedState : EngineState :=
  ⟨[zeroCompletedReminder], ⟨"free", 5⟩, []⟩

/-- C5 counterexample: with the clock at 30 days + 1 ms after the epoch, the
stored reminder is completed and its completedAt (0) lies strictly more than
30 days in the past, yet cleanupExpiredCompleted removes nothing and returns
count 0, because the source guards the age test with the JS-truthiness of
completedAt and the number 0 is falsy. -/
theorem cleanup_retains_zero_completedAt :
    zeroCompletedReminder.status = REMINDER_STATUS.COMPLETED ∧
      zeroCompletedReminder.completedAt = some 0 ∧
      (CLEANUP.COMPLETED_RETENTION_MS + 1) - 0 > CLEANUP.COMPLETED_RETENTION_MS ∧
      cleanupExpiredCompleted (CLEANUP.COMPLETED_RETENTION_MS + 1) zeroCompletedState =
        (0, zeroCompletedState) :=
  ⟨rfl, rfl, by norm_num, rfl⟩

/-- Auxiliary count identity: the removed count computed as a length
difference against the retained filter equals the count of records the
removal test accepts. -/
lemma length_sub_filter_not_eq_countP (p : Reminder → Bool) (l : List Reminder) :
    l.length - (l.filter (fun r => !p r)).length = l.countP p := by
  induction l with
  | nil => rfl
  | cons a l ih =>
    have hle := List.length_filter_le (fun r => !p r) l
    rw [List.filter_cons, List.countP_cons, List.length_cons]
    by_cases hp : p a = true
    · simp [hp]
      omega
    · simp [hp]
      omega

/-- C5 amended: cleanupExpiredCompleted removes exactly the reminders whose
status is completed, whose completedAt is truthy (non-null and nonzero), and
whose completedAt is strictly more than 30 days before now; every other
reminder is left in place (in order), the plan and alarms are untouched, and
the returned value is the number removed.  The boundary cases follow: a
truthy completedAt exactly 30 days + 1 ms old satisfies the removal test,
one 29 days 23 h 59 min old does not. -/
theorem cleanup_removes_exactly_filtered (now : Int) (st : EngineState) :
    (cleanupExpiredCompleted now st).2.reminders =
        st.reminders.filter (fun r => !cleanupRemoves now r) ∧
      (cleanupExpiredCompleted now st).1 = st.reminders.countP (cleanupRemoves now) ∧
      (cleanupExpiredCompleted now st).2.userPlan = st.userPlan ∧
      (cleanupExpiredCompleted now st).2.alarms = st.alarms ∧
      ∀ r, r ∈ (cleanupExpiredCompleted now st).2.reminders ↔
        (r ∈ st.reminders ∧ cleanupRemoves now r = false) := by
  have hcount : st.reminders.length -
      (st.reminders.filter (fun r => !cleanupRemoves now r)).length =
      st.reminders.countP (cleanupRemoves now) :=
    length_sub_filter_not_eq_countP (cleanupRemoves now) st.reminders
  unfold cleanupExpiredCompleted
  by_cases hpos : st.reminders.length -
      (st.reminders.filter (fun r => !cleanupRemoves now r)).length > 0
  · rw [if_pos hpos]
    refine ⟨rfl, hcount, rfl, rfl, fun r => ?_⟩
    simp [List.mem_filter]
  · rw [if_neg hpos]
    have heq : st.reminders.filter (fun r => !cleanupRemoves now r) = st.reminders := by
      have hsub := List.filter_sublist (l := st.reminders) (p := fun r => !cleanupRemoves now r)
      have hlen : (st.reminders.filter (fun r => !cleanupRemoves now r)).length =
          st.reminders.length := by
        have := List.length_filter_le (fun r => !cleanupRemoves now r) st.reminders
        omega
      exact hsub.eq_of_length hlen
    have hall : ∀ r ∈ st.reminders, cleanupRemoves now r = false := by
      intro r hr
      have := List.filter_eq_self.mp heq r hr
      simpa using this
    refine ⟨heq.symm, hcount, rfl, rfl, fun r => ?_⟩
    exact ⟨fun hr => ⟨hr, hall r hr⟩, fun hcon => hcon.1⟩

/- ----------------------------------------------------------------
   C6
   ---------------------------------------------------------------- -/

/-- Appending to a fixed string on the left is injective. -/
lemma string_append_left_cancel {p a b : String} (h : p ++ a = p ++ b) : a = b := by
  have hd := congrArg String.data h
  rw [String.data_append, String.data_append] at hd
  have hab : a.data = b.data := List.append_cancel_left hd
  obtain ⟨ad⟩ := a
  obtain ⟨bd⟩ := b
  exact congrArg String.mk hab

/-- The fold of reconcileAlarms, once the snapshot of existing names is
empty, appends exactly one alarm per pending reminder to the accumulator,
provided the accumulator holds no alarm whose name collides with a remaining
reminder key and the reminder ids are distinct. -/
lemma reconcile_foldl_no_existing (l : List Reminder) (acc : List Alarm)
    (hdisj : ∀ r ∈ l, ∀ a ∈ acc, a.name ≠ ALARM_KEY_BASE ++ r.id)
    (hnodup : (l.map Reminder.id).Nodup) :
    l.foldl (fun acc2 r =>
        if r.status == REMINDER_STATUS.PENDING then
          alarmsCreate acc2 (ALARM_KEY_BASE ++ r.id) r.scheduledTime
        else acc2) acc =
      acc ++ (l.filter (fun r => r.status == REMINDER_STATUS.PENDING)).map
        (fun r => ⟨ALARM_KEY_BASE ++ r.id, r.scheduledTime⟩) := by
  induction l generalizing acc with
  | nil => simp
  | cons r l ih =>
    rw [List.map_cons, List.nodup_cons] at hnodup
    obtain ⟨hnotin, hnodupl⟩ := hnodup
    by_cases hp : (r.status == REMINDER_STATUS.PENDING) = true
    · have hacc : alarmsCreate acc (ALARM_KEY_BASE ++ r.id) r.scheduledTime =
          acc ++ [⟨ALARM_KEY_BASE ++ r.id, r.scheduledTime⟩] := by
        unfold alarmsCreate
        congr 1
        refine List.filter_eq_self.mpr (fun a ha => ?_)
        simpa using hdisj r (List.mem_cons_self r l) a ha
      have hdisj2 : ∀ r2 ∈ l, ∀ a ∈ acc ++ [(⟨ALARM_KEY_BASE ++ r.id, r.scheduledTime⟩ : Alarm)],
          a.name ≠ ALARM_KEY_BASE ++ r2.id := by
        intro r2 hr2 a ha
        rcases List.mem_append.mp ha with hin | hin
        · exact hdisj r2 (List.mem_cons_of_mem r hr2) a hin
        · have ha2 : a = ⟨ALARM_KEY_BASE ++ r.id, r.scheduledTime⟩ := by
            simpa using hin
          rw [ha2]
          intro hcontra
          have hid : r.id = r2.id := string_append_left_cancel hcontra
          exact hnotin (hid ▸ List.mem_map_of_mem Reminder.id hr2)
      rw [List.foldl_cons, if_pos hp, hacc, ih _ hdisj2 hnodupl]
      rw [List.filter_cons, if_pos hp, List.map_cons]
      simp
    · rw [List.foldl_cons, if_neg hp]
      rw [ih acc (fun r2 hr2 a ha => hdisj r2 (List.mem_cons_of_mem r hr2) a ha) hnodupl]
      rw [List.filter_cons, if_neg hp]

/-- C6: starting from a state with no registered alarms and distinct
reminder ids, reconcileAlarms registers exactly one alarm, keyed
"reminder-" ++ id at the scheduledTime, per pending reminder and none for
completed ones, leaving the reminder collection and the plan untouched. -/
theorem reconcileAlarms_restores_pending (st : EngineState)
    (h1 : st.alarms = [])
    (h2 : (st.reminders.map Reminder.id).Nodup) :
    (reconcileAlarms st).alarms =
        (st.reminders.filter (fun r => r.status == REMINDER_STATUS.PENDING)).map
          (fun r => ⟨ALARM_KEY_BASE ++ r.id, r.scheduledTime⟩) ∧
      (reconcileAlarms st).reminders = st.reminders ∧
      (reconcileAlarms st).userPlan = st.userPlan := by
  refine ⟨?_, rfl, rfl⟩
  show (st.reminders.foldl
      (fun acc r =>
        if r.status == REMINDER_STATUS.PENDING &&
            !(st.alarms.map (fun a => a.name)).contains (ALARM_KEY_BASE ++ r.id) then
          alarmsCreate acc (ALARM_KEY_BASE ++ r.id) r.scheduledTime
        else acc)
      st.alarms) = _
  rw [h1]
  have hfun : (fun (acc : List Alarm) (r : Reminder) =>
      if r.status == REMINDER_STATUS.PENDING &&
          !(([] : List Alarm).map (fun a => a.name)).contains (ALARM_KEY_BASE ++ r.id) then
        alarmsCreate acc (ALARM_KEY_BASE ++ r.id) r.scheduledTime
      else acc) = (fun acc r =>
      if r.status == REMINDER_STATUS.PENDING then
        alarmsCreate acc (ALARM_KEY_BASE ++ r.id) r.scheduledTime
      else acc) := by
    funext acc r
    simp
  rw [hfun]
  exact reconcile_foldl_no_existing st.reminders [] (fun r _ a ha => absurd ha (by simp)) h2

/-- C6 witness: a store with one pending and one completed reminder and no
alarms gets exactly the single alarm for the pending one. -/
theorem reconcileAlarms_restores_pending_witness :
    (⟨[⟨"a", "1", "n", .fin 50, 0, "pending", none⟩,
       ⟨"b", "1", "n", .fin 60, 0, "completed", some 1⟩], ⟨"free", 5⟩, []⟩ :
        EngineState).alarms = [] ∧
      ((⟨[⟨"a", "1", "n", .fin 50, 0, "pending", none⟩,
          ⟨"b", "1", "n", .fin 60, 0, "completed", some 1⟩], ⟨"free", 5⟩, []⟩ :
          EngineState).reminders.map Reminder.id).Nodup ∧
      ((reconcileAlarms ⟨[⟨"a", "1", "n", .fin 50, 0, "pending", none⟩,
          ⟨"b", "1", "n", .fin 60, 0, "completed", some 1⟩], ⟨"free", 5⟩, []⟩).alarms =
          ((⟨[⟨"a", "1", "n", .fin 50, 0, "pending", none⟩,
             ⟨"b", "1", "n", .fin 60, 0, "completed", some 1⟩], ⟨"free", 5⟩, []⟩ :
             EngineState).reminders.filter
            (fun r => r.status == REMINDER_STATUS.PENDING)).map
            (fun r => ⟨ALARM_KEY_BASE ++ r.id, r.scheduledTime⟩) ∧
        (reconcileAlarms ⟨[⟨"a", "1", "n", .fin 50, 0, "pending", none⟩,
          ⟨"b", "1", "n", .fin 60, 0, "completed", some 1⟩], ⟨"free", 5⟩, []⟩).reminders =
          (⟨[⟨"a", "1", "n", .fin 50, 0, "pending", none⟩,
             ⟨"b", "1", "n", .fin 60, 0, "completed", some 1⟩], ⟨"free", 5⟩, []⟩ :
             EngineState).reminders ∧
        (reconcileAlarms ⟨[⟨"a", "1", "n", .fin 50, 0, "pending", none⟩,
          ⟨"b", "1", "n", .fin 60, 0, "completed", some 1⟩], ⟨"free", 5⟩, []⟩).userPlan =
          (⟨[⟨"a", "1", "n", .fin 50, 0, "pending", none⟩,
             ⟨"b", "1", "n", .fin 60, 0, "completed", some 1⟩], ⟨"free", 5⟩, []⟩ :
             EngineState).userPlan) :=
  ⟨rfl, by decide,
    reconcileAlarms_restores_pending
      ⟨[⟨"a", "1", "n", .fin 50, 0, "pending", none⟩,
        ⟨"b", "1", "n", .fin 60, 0, "completed", some 1⟩], ⟨"free", 5⟩, []⟩
      rfl (by decide)⟩

/- ----------------------------------------------------------------
   State-machine lemmas
   ---------------------------------------------------------------- -/

/-- create never touches the plan record. -/
lemma createReminder_userPlan (estB : List Reminder → Nat) (p : CreatePayload)
    (now : Int) (newId : String) (st : EngineState) :
    (createReminder estB p now newId st).2.userPlan = st.userPlan := by
  simp only [createReminder]
  split
  · rfl
  split
  · rfl
  split
  · rfl
  · rfl

/-- complete never touches the plan record. -/
lemma completeReminder_userPlan (reminderId : String) (now : Int) (st : EngineState) :
    (completeReminder reminderId now st).2.userPlan = st.userPlan := by
  unfold completeReminder
  split
  · rfl
  split
  · rfl
  split
  · rfl
  · rfl

/-- delete never touches the plan record. -/
lemma deleteReminder_userPlan (reminderId : String) (st : EngineState) :
    (deleteReminder reminderId st).2.userPlan = st.userPlan := by
  unfold deleteReminder
  split
  · rfl
  · rfl

/-- cleanup never touches the plan record. -/
lemma cleanupExpiredCompleted_userPlan (now : Int) (st : EngineState) :
    (cleanupExpiredCompleted now st).2.userPlan = st.userPlan := by
  simp only [cleanupExpiredCompleted]
  split
  · rfl
  · rfl

/-- No engine operation touches the plan record. -/
lemma applyOp_userPlan (estB : List Reminder → Nat) (st : EngineState) (op : Op) :
    (applyOp estB st op).userPlan = st.userPlan := by
  cases op with
  | create p now newId => exact createReminder_userPlan estB p now newId st
  | complete reminderId now => exact completeReminder_userPlan reminderId now st
  | delete reminderId => exact deleteReminder_userPlan reminderId st
  | cleanup now => exact cleanupExpiredCompleted_userPlan now st

/-- Running any operation sequence preserves the plan record. -/
lemma runOps_userPlan (estB : List Reminder → Nat) (ops : List Op) (st : EngineState) :
    (runOps estB st ops).userPlan = st.userPlan := by
  induction ops generalizing st with
  | nil => rfl
  | cons op ops ih =>
    rw [runOps, ih (applyOp estB st op), applyOp_userPlan]

/-- A successful create passed admission control, appended exactly its
result record (a pending one) to the collection, and left the plan alone. -/
lemma createReminder_ok_state (estB : List Reminder → Nat) (p : CreatePayload)
    (now : Int) (newId : String) (st : EngineState) (r : Reminder) (st2 : EngineState)
    (h : createReminder estB p now newId st = (.ok r, st2)) :
    canCreateReminder st.reminders st.userPlan = true ∧
      st2.reminders = st.reminders ++ [r] ∧
      st2.userPlan = st.userPlan ∧
      r.status = REMINDER_STATUS.PENDING := by
  simp only [createReminder] at h
  by_cases hv : (!(validateCreateReminderPayload p now).valid) = true
  · rw [if_pos hv] at h
    exact absurd (congrArg Prod.fst h) (by simp)
  · rw [if_neg hv] at h
    by_cases hcc : (!canCreateReminder st.reminders st.userPlan) = true
    · rw [if_pos hcc] at h
      exact absurd (congrArg Prod.fst h) (by simp)
    · rw [if_neg hcc] at h
      by_cases hq : (checkStorageQuota estB st.reminders).nearQuota = true
      · rw [if_pos hq] at h
        exact absurd (congrArg Prod.fst h) (by simp)
      · rw [if_neg hq] at h
        rw [Prod.mk.injEq] at h
        obtain ⟨h1, h2⟩ := h
        rw [Except.ok.injEq] at h1
        subst h1
        subst h2
        exact ⟨by simpa using hcc, rfl, rfl, rfl⟩

/-- pendingCount grows by exactly one when a pending record is appended. -/
lemma pendingCount_append_pending (l : List Reminder) (r : Reminder)
    (h : r.status = REMINDER_STATUS.PENDING) :
    pendingCount (l ++ [r]) = pendingCount l + 1 := by
  unfold pendingCount
  rw [List.filter_append, List.length_append]
  simp [h]

/- ----------------------------------------------------------------
   C1
   ---------------------------------------------------------------- -/

/-- C1: over every sequence of engine operations starting from the empty
store under a plan with a non-negative limit L (a free plan, not the -1
unlimited sentinel), whenever a create returns successfully the number of
pending reminders in the resulting store is at most L: admission only lets
the create through when the pending count is strictly below L and the
create adds exactly one pending record. -/
theorem create_respects_plan_limit (estB : List Reminder → Nat) (L : Int)
    (hL : 0 ≤ L) (planType : String) (ops : List Op) (p : CreatePayload)
    (now : Int) (newId : String) (r : Reminder) (st2 : EngineState)
    (h : createReminder estB p now newId (runOps estB (initState ⟨planType, L⟩) ops) =
      (.ok r, st2)) :
    (pendingCount st2.reminders : Int) ≤ L := by
  obtain ⟨hcan, hrem, _, hstat⟩ := createReminder_ok_state _ _ _ _ _ _ _ h
  have hplan : (runOps estB (initState ⟨planType, L⟩) ops).userPlan = ⟨planType, L⟩ :=
    runOps_userPlan estB ops (initState ⟨planType, L⟩)
  have hlt : (pendingCount (runOps estB (initState ⟨planType, L⟩) ops).reminders : Int) < L := by
    unfold canCreateReminder at hcan
    rw [hplan] at hcan
    have hsent : ((⟨planType, L⟩ : UserPlan).activeReminderLimit ==
        PLAN_LIMITS.PAID_ACTIVE_REMINDER_LIMIT) = false := by
      simp only [PLAN_LIMITS.PAID_ACTIVE_REMINDER_LIMIT, beq_eq_false_iff_ne, ne_eq]
      omega
    rw [hsent] at hcan
    simpa using hcan
  rw [hrem, pendingCount_append_pending _ _ hstat]
  push_cast
  omega

/-- C1 witness: one successful create from the empty free-plan store yields
pending count 1, which is at most the limit 5. -/
theorem create_respects_plan_limit_witness :
    (0 : Int) ≤ 5 ∧
      createReminder (fun _ => 0) ⟨"123", "Bob", .fin 10⟩ 0 "a"
          (runOps (fun _ => 0) (initState ⟨"free", 5⟩) []) =
        (.ok ⟨"a", "123", "Bob", .fin 10, 0, "pending", none⟩,
          ⟨[⟨"a", "123", "Bob", .fin 10, 0, "pending", none⟩], ⟨"free", 5⟩,
            [⟨"reminder-a", .fin 10⟩]⟩) ∧
      (pendingCount [⟨"a", "123", "Bob", .fin 10, 0, "pending", none⟩] : Int) ≤ 5 :=
  ⟨by norm_num, rfl,
    create_respects_plan_limit (fun _ => 0) 5 (by norm_num) "free" [] ⟨"123", "Bob", .fin 10⟩
      0 "a" ⟨"a", "123", "Bob", .fin 10, 0, "pending", none⟩
      ⟨[⟨"a", "123", "Bob", .fin 10, 0, "pending", none⟩], ⟨"free", 5⟩,
        [⟨"reminder-a", .fin 10⟩]⟩ rfl⟩

/- ----------------------------------------------------------------
   C9
   ---------------------------------------------------------------- -/

/-- The C9 invariant: a stored record has status completed exactly when its
completedAt is set. -/
def statusMatchesCompletedAt (st : EngineState) : Prop :=
  ∀ r ∈ st.reminders, (r.status = REMINDER_STATUS.COMPLETED ↔ r.completedAt ≠ none)

/-- Every engine operation preserves the C9 invariant. -/
lemma applyOp_preserves_statusMatches (estB : List Reminder → Nat) (st : EngineState)
    (op : Op) (h : statusMatchesCompletedAt st) :
    statusMatchesCompletedAt (applyOp estB st op) := by
  cases op with
  | create p now newId =>
    show statusMatchesCompletedAt (createReminder estB p now newId st).2
    simp only [createReminder]
    split
    · exact h
    split
    · exact h
    split
    · exact h
    · intro r hr
      rcases List.mem_append.mp hr with hin | hin
      · exact h r hin
      · rw [List.mem_singleton.mp hin]
        simp [REMINDER_STATUS.PENDING, REMINDER_STATUS.COMPLETED]
  | complete reminderId now =>
    show statusMatchesCompletedAt (completeReminder reminderId now st).2
    unfold completeReminder
    split
    · exact h
    split
    · exact h
    split
    · exact h
    · intro r hr
      rcases List.mem_or_eq_of_mem_set hr with hin | heq
      · exact h r hin
      · rw [heq]
        simp
  | delete reminderId =>
    show statusMatchesCompletedAt (deleteReminder reminderId st).2
    unfold deleteReminder
    split
    · exact h
    · intro r hr
      exact h r ((List.eraseIdx_sublist _ _).subset hr)
  | cleanup now =>
    show statusMatchesCompletedAt (cleanupExpiredCompleted now st).2
    simp only [cleanupExpiredCompleted]
    split
    · intro r hr
      exact h r (List.mem_filter.mp hr).1
    · exact h

/-- The C9 invariant holds after any operation sequence from an
invariant-satisfying state. -/
lemma runOps_preserves_statusMatches (estB : List Reminder → Nat) (ops : List Op)
    (st : EngineState) (h : statusMatchesCompletedAt st) :
    statusMatchesCompletedAt (runOps estB st ops) := by
  induction ops generalizing st with
  | nil => exact h
  | cons op ops ih =>
    exact ih (applyOp estB st op) (applyOp_preserves_statusMatches estB st op h)

/-- C9: in every store state reachable from the empty collection via
create, complete, delete and cleanup, a record has status completed exactly
when its completedAt is non-null: create produces pending records with
completedAt null and complete sets status and completedAt together. -/
theorem reachable_status_iff_completedAt (estB : List Reminder → Nat) (plan : UserPlan)
    (ops : List Op) (r : Reminder)
    (hr : r ∈ (runOps estB (initState plan) ops).reminders) :
    r.status = REMINDER_STATUS.COMPLETED ↔ r.completedAt ≠ none := by
  refine runOps_preserves_statusMatches estB ops (initState plan) ?_ r hr
  intro r2 hr2
  exact absurd hr2 (List.not_mem_nil r2)

/-- C9 witness: after a create followed by its completion, the stored
record is completed with completedAt set, and the invariant instance holds
for it. -/
theorem reachable_status_iff_completedAt_witness :
    (⟨"a", "123", "Bob", .fin 10, 0, "completed", some 5⟩ : Reminder) ∈
        (runOps (fun _ => 0) (initState ⟨"free", 5⟩)
          [.create ⟨"123", "Bob", .fin 10⟩ 0 "a", .complete "a" 5]).reminders ∧
      ((⟨"a", "123", "Bob", .fin 10, 0, "completed", some 5⟩ : Reminder).status =
          REMINDER_STATUS.COMPLETED ↔
        (⟨"a", "123", "Bob", .fin 10, 0, "completed", some 5⟩ : Reminder).completedAt ≠ none) :=
  ⟨by decide,
    reachable_status_iff_completedAt (fun _ => 0) ⟨"free", 5⟩
      [.create ⟨"123", "Bob", .fin 10⟩ 0 "a", .complete "a" 5]
      ⟨"a", "123", "Bob", .fin 10, 0, "completed", some 5⟩ (by decide)⟩

end WAReminder
